import Mathlib

/-!
Shallow embedding of `src/arch_mirror_updater.py` (an Arch Linux mirror-list
updater script) together with theorems settling the specification claims.

Modelling conventions:
* Python strings are Lean `String`; the `in` substring test is `strContains`.
* Python floats (`completion_pct`, `score`, and the hour arithmetic in
  `is_outdated`) are `Rat`; at the granularities the claims mention
  (whole percentages, 0.01-hour steps) rational arithmetic agrees with the
  double-precision arithmetic the interpreter performs.
* `datetime.datetime.strptime` is embedded for the two format strings the
  script passes ("%Y-%m-%dT%H:%M:%SZ" and "%Y-%m-%dT%H:%M:%S.%fZ"),
  represented by the enum `TimeFormat`; a parsed datetime is converted to an
  absolute microsecond count (proleptic Gregorian), which is exactly the
  granularity of Python's naive-datetime subtraction.
* The global `NOW = datetime.datetime.now()` captured at import time is
  threaded as an explicit `now : Int` microsecond parameter.
* The generator `updated_urls` is modelled by the list of lines it yields
  before finishing or raising (`List String × Bool`, the flag meaning a
  `ValueError`/`TimeParseError` was raised mid-iteration), and the `for`
  loop of `main` that consumes it interleaved with file writes is modelled
  by `writeLoop`, whose state records the file content, the number of
  `open` calls performed, the current mode ("w" vs "a") and `have_failed`.
* `main`'s effects are summarised in `RunResult`: final file content, open
  count, whether the fetch was attempted, the two `warnings.warn` calls,
  and which fatal error (if any) aborted the run.
-/

namespace ArchMirror

/-- Boolean list-prefix test on characters (Python substring search helper). -/
def isPrefixB : List Char → List Char → Bool
  | [], _ => true
  | _ :: _, [] => false
  | a :: as, b :: bs => a = b && isPrefixB as bs

/-- Boolean substring-occurrence test on character lists. -/
def isSubstrB (pat : List Char) : List Char → Bool
  | [] => isPrefixB pat []
  | c :: rest => isPrefixB pat (c :: rest) || isSubstrB pat rest

/-- Python's `pat in s` substring containment on strings. -/
def strContains (s pat : String) : Bool :=
  isSubstrB pat.toList s.toList

/-! ### Script options and constants (lines 20-28 of the source) -/

/-- `MAX_LAST_SYNC_HOURS = 6`. -/
def MAX_LAST_SYNC_HOURS : Nat := 6

/-- `MAX_SCORE = 1`. -/
def MAX_SCORE : Rat := 1

/-- `MINIMUM_COMPLETION_PERCENTAGE = 1`. -/
def MINIMUM_COMPLETION_PERCENTAGE : Rat := 1

/-- `URL_BLACKLIST = \x7b"mirrors.lug.mtu.edu", "mirror.rackspace.com"\x7d`
(a set in Python; iteration order is irrelevant to the `any(...)` test). -/
def URL_BLACKLIST : List String :=
  ["mirrors.lug.mtu.edu", "mirror.rackspace.com"]

/-- `MIRROR_LIST_PATH = "/etc/pacman.d/mirrorlist"`. -/
def MIRROR_LIST_PATH : String := "/etc/pacman.d/mirrorlist"

/-! ### Timestamps and `strptime` -/

/-- A parsed naive datetime, as produced by `datetime.datetime.strptime`. -/
structure DT where
  year : Nat
  month : Nat
  day : Nat
  hour : Nat
  minute : Nat
  second : Nat
  microsecond : Nat
deriving DecidableEq

/-- The two format strings the script passes to `strptime`:
`noSub` is "%Y-%m-%dT%H:%M:%SZ", `subSec` is "%Y-%m-%dT%H:%M:%S.%fZ". -/
inductive TimeFormat where
  | noSub
  | subSec
deriving DecidableEq

def isLeapYear (y : Nat) : Bool :=
  (y % 4 == 0 && y % 100 != 0) || y % 400 == 0

def daysInMonth (y m : Nat) : Nat :=
  match m with
  | 1 => 31 | 3 => 31 | 5 => 31 | 7 => 31 | 8 => 31 | 10 => 31 | 12 => 31
  | 4 => 30 | 6 => 30 | 9 => 30 | 11 => 30
  | 2 => if isLeapYear y then 29 else 28
  | _ => 0

/-- Days strictly before month `m` in a year (leap-adjusted). -/
def daysBeforeMonth (leap : Bool) (m : Nat) : Nat :=
  let base :=
    match m with
    | 1 => 0 | 2 => 31 | 3 => 59 | 4 => 90 | 5 => 120 | 6 => 151
    | 7 => 181 | 8 => 212 | 9 => 243 | 10 => 273 | 11 => 304 | 12 => 334
    | _ => 0
  if leap && decide (m > 2) then base + 1 else base

/-- Proleptic-Gregorian day count of a date (0001-01-01 is day 0). -/
def toEpochDays (dt : DT) : Nat :=
  let y := dt.year - 1
  y * 365 + y / 4 - y / 100 + y / 400
    + daysBeforeMonth (isLeapYear dt.year) dt.month + (dt.day - 1)

/-- Absolute microsecond count of a naive datetime; differences of this
count coincide with Python `datetime` subtraction (in microseconds). -/
def toEpochUs (dt : DT) : Nat :=
  (((toEpochDays dt * 24 + dt.hour) * 60 + dt.minute) * 60 + dt.second)
      * 1000000
    + dt.microsecond

/-- Range validity enforced by `datetime.datetime` construction inside
`strptime` (year 1-9999, real calendar date, second 0-59). -/
def validDT (dt : DT) : Bool :=
  decide (1 ≤ dt.year) && decide (dt.year ≤ 9999)
    && decide (1 ≤ dt.month) && decide (dt.month ≤ 12)
    && decide (1 ≤ dt.day) && decide (dt.day ≤ daysInMonth dt.year dt.month)
    && decide (dt.hour ≤ 23) && decide (dt.minute ≤ 59)
    && decide (dt.second ≤ 59)

def digitsToNat (acc : Nat) : List Char → Nat
  | [] => acc
  | c :: cs => digitsToNat (acc * 10 + (c.toNat - 48)) cs

/-- Split off the maximal leading run of ASCII digits. -/
def spanDigits : List Char → List Char × List Char
  | [] => ([], [])
  | c :: cs =>
    if c.isDigit then
      let (d, r) := spanDigits cs
      (c :: d, r)
    else ([], c :: cs)

/-- Parse a numeric field of between `minW` and `maxW` digits (maximal
munch; in the script's formats every field is followed by a non-digit
literal, so this agrees with CPython's backtracking regex). -/
def parseField (minW maxW : Nat) (cs : List Char) :
    Option (Nat × List Char) :=
  let (ds, rest) := spanDigits cs
  if minW ≤ ds.length && ds.length ≤ maxW then
    some (digitsToNat 0 ds, rest)
  else none

/-- Parse a `%f` field: 1-6 digits, right-padded with zeros to
microseconds. -/
def parseFrac (cs : List Char) : Option (Nat × List Char) :=
  let (ds, rest) := spanDigits cs
  if 1 ≤ ds.length && ds.length ≤ 6 then
    some (digitsToNat 0 ds * 10 ^ (6 - ds.length), rest)
  else none

/-- Consume one expected literal character. -/
def parseLit (c : Char) : List Char → Option (List Char)
  | [] => none
  | x :: xs => if x = c then some xs else none

/-- `datetime.datetime.strptime(s, fmt)` for the two formats the script
uses; `none` is the `ValueError` (the spec's `TimeParseError`). -/
def strptime (fmt : TimeFormat) (s : String) : Option DT := do
  let cs := s.toList
  let (y, cs) ← parseField 4 4 cs
  let cs ← parseLit '-' cs
  let (mo, cs) ← parseField 1 2 cs
  let cs ← parseLit '-' cs
  let (d, cs) ← parseField 1 2 cs
  let cs ← parseLit 'T' cs
  let (h, cs) ← parseField 1 2 cs
  let cs ← parseLit ':' cs
  let (mi, cs) ← parseField 1 2 cs
  let cs ← parseLit ':' cs
  let (se, cs) ← parseField 1 2 cs
  let (us, cs) ←
    match fmt with
    | .noSub => pure ((0 : Nat), cs)
    | .subSec => do
      let cs ← parseLit '.' cs
      parseFrac cs
  let cs ← parseLit 'Z' cs
  if cs.isEmpty then
    let dt : DT := ⟨y, mo, d, h, mi, se, us⟩
    if validDT dt then pure dt else none
  else none

/-- `is_outdated` (source lines 175-194): parse the timestamp, subtract it
from `NOW` (here the explicit `now`, in microseconds), convert to hours and
compare with `MAX_LAST_SYNC_HOURS`.  `none` models the uncaught
`ValueError` from `strptime`. -/
def is_outdated (now : Int) (timestamp : String) (time_format : TimeFormat) :
    Option Bool :=
  match strptime time_format timestamp with
  | none => none
  | some parsed =>
    let result : Int := now - (toEpochUs parsed : Int)
    let hours_since_last_sync : Rat := ((result : Rat) / 1000000) / 3600
    some (decide (hours_since_last_sync > (MAX_LAST_SYNC_HOURS : Rat)))

/-! ### Candidate entries and the filter -/

/-- The fields of one element of `DATA["urls"]` that the script consumes. -/
structure MirrorEntry where
  url : String
  protocol : String
  last_sync : String
  completion_pct : Rat
  score : Rat
  active : Bool
deriving DecidableEq

/-- The `yield` line of `updated_urls` (source line 172). -/
def formatLine (e : MirrorEntry) : String :=
  "Server = " ++ e.url ++ "$repo/os/$arch\n"

/-- The filter body of `updated_urls` for one entry, with the source's
short-circuit `elif` chain: `.ok false` means `continue`, `.ok true` means
the entry is yielded, `.error ()` is the `ValueError` escaping from
`is_outdated` on `last_sync`. -/
def keepEntry (now : Int) (e : MirrorEntry) : Except Unit Bool :=
  if URL_BLACKLIST.any (fun slow_url => strContains e.url slow_url) then
    .ok false
  else if !e.active then
    .ok false
  else if e.protocol ≠ "https" then
    .ok false
  else if !(decide (e.completion_pct ≥ MINIMUM_COMPLETION_PERCENTAGE)) then
    .ok false
  else if decide (e.score ≥ MAX_SCORE) then
    .ok false
  else
    match is_outdated now e.last_sync .noSub with
    | none => .error ()
    | some true => .ok false
    | some false => .ok true

/-- Total keep predicate: the entry is yielded (no error, all predicates
pass). -/
def keepB (now : Int) (e : MirrorEntry) : Bool :=
  match keepEntry now e with
  | .ok true => true
  | _ => false

/-- The generator `updated_urls` (source lines 136-172), observed as the
list of lines it yields and whether it raised mid-iteration. -/
def updated_urls (now : Int) : List MirrorEntry → List String × Bool
  | [] => ([], false)
  | e :: rest =>
    match keepEntry now e with
    | .error _ => ([], true)
    | .ok false => updated_urls now rest
    | .ok true =>
      let (ls, ab) := updated_urls now rest
      (formatLine e :: ls, ab)

/-! ### The write loop and `main` -/

/-- State of the `for mirror_path in updated_urls(...)` loop of `main`:
the mirror-list file's content, how many times `open` ran, whether the
next open uses mode "w", and the `have_failed` flag. -/
structure WriteState where
  file : String
  openCount : Nat
  truncate : Bool
  have_failed : Bool
deriving DecidableEq

/-- Concatenation of the written lines, in order. -/
def linesConcat : List String → String
  | [] => ""
  | s :: rest => s ++ linesConcat rest

/-- The loop of `main` (source lines 63-72): consume the generator lazily;
each yielded line opens the file (truncating on the first open) and writes
the line.  The returned flag records whether the generator raised. -/
def writeLoop (now : Int) : List MirrorEntry → WriteState → WriteState × Bool
  | [], st => (st, false)
  | e :: rest, st =>
    match keepEntry now e with
    | .error _ => (st, true)
    | .ok false => writeLoop now rest st
    | .ok true =>
      writeLoop now rest
        { file := (if st.truncate then "" else st.file) ++ formatLine e
          openCount := st.openCount + 1
          truncate := false
          have_failed := false }

/-- The spec's error taxonomy, mapped onto the script's raised exceptions
(`RuntimeError` for the two precondition failures, network/JSON errors
from the fetch, `ValueError` from `strptime`). -/
inductive RunError where
  | platformError
  | privilegeError
  | networkError
  | parseError
  | timeParseError
deriving DecidableEq

/-- Outcome of `load_data_from_url` when it fails. -/
inductive FetchError where
  | network
  | parse
deriving DecidableEq

/-- The parts of the fetched JSON document the script consumes. -/
structure Payload where
  last_check : String
  urls : List MirrorEntry
deriving DecidableEq

deriving instance DecidableEq for Except

/-- The ambient state `main` reads: `sys.platform`, `os.geteuid()`, the
captured `NOW` (microseconds), the outcome of the network fetch, and the
mirror-list file's content before the run. -/
structure Env where
  platform : String
  euid : Nat
  now : Int
  fetchResult : Except FetchError Payload
  preFile : String
deriving DecidableEq

/-- Observable outcome of one run of `main`: final file content, number of
`open` calls, whether the fetch was attempted, the staleness warning, the
"mirror list was not updated" warning, and the fatal error if any. -/
structure RunResult where
  file : String
  openCount : Nat
  fetchAttempted : Bool
  warnedStale : Bool
  warnedNotUpdated : Bool
  err : Option RunError
deriving DecidableEq

/-- `is_platform_linux` (source lines 78-87): `"linux" in sys.platform`. -/
def is_platform_linux (platform : String) : Bool :=
  strContains platform "linux"

/-- `main` (source lines 31-75): precondition checks, fetch, staleness
advisory on `last_check` (sub-second format), then the write loop and the
final `have_failed` advisory. -/
def main (env : Env) : RunResult :=
  if !is_platform_linux env.platform then
    ⟨env.preFile, 0, false, false, false, some .platformError⟩
  else if env.euid ≠ 0 then
    ⟨env.preFile, 0, false, false, false, some .privilegeError⟩
  else
    match env.fetchResult with
    | .error .network =>
      ⟨env.preFile, 0, true, false, false, some .networkError⟩
    | .error .parse =>
      ⟨env.preFile, 0, true, false, false, some .parseError⟩
    | .ok data =>
      match is_outdated env.now data.last_check .subSec with
      | none => ⟨env.preFile, 0, true, false, false, some .timeParseError⟩
      | some stale =>
        let (st, aborted) :=
          writeLoop env.now data.urls ⟨env.preFile, 0, true, true⟩
        if aborted then
          ⟨st.file, st.openCount, true, stale, false, some .timeParseError⟩
        else
          ⟨st.file, st.openCount, true, stale, st.have_failed, none⟩

/-! ### Concrete fixtures used by witnesses and counterexamples -/

/-- A reference "now": 2020-01-01 12:00:00, in microseconds. -/
def nowRef : Int := toEpochUs ⟨2020, 1, 1, 12, 0, 0, 0⟩

/-- An entry passing every predicate at `nowRef` (2 hours old). -/
def entryGood : MirrorEntry :=
  ⟨"mirror.example/", "https", "2020-01-01T10:00:00Z", 1, mkRat 1 2, true⟩

/-- A second entry passing every predicate at `nowRef` (3 hours old). -/
def entryGood2 : MirrorEntry :=
  ⟨"other.example/", "https", "2020-01-01T09:00:00Z", 1, mkRat 1 2, true⟩

/-- An entry passing the first five predicates whose `last_sync` does not
parse, so the filter raises on it. -/
def entryBadSync : MirrorEntry :=
  ⟨"mirror2.example/", "https", "not-a-timestamp", 1, mkRat 1 2, true⟩

/-- An entry failing the protocol predicate. -/
def entryHttp : MirrorEntry :=
  ⟨"mirror3.example/", "http", "2020-01-01T10:00:00Z", 1, mkRat 1 2, true⟩

/-- An inactive entry whose `last_sync` does not parse. -/
def entryOffline : MirrorEntry :=
  ⟨"mirror4.example/", "https", "not-a-timestamp", 1, mkRat 1 2, false⟩

/-- A fresh top-level `last_check` (1 hour old at `nowRef`). -/
def freshCheck : String := "2020-01-01T11:00:00.000000Z"

/-- A stale top-level `last_check` (10 hours old at `nowRef`). -/
def staleCheck : String := "2020-01-01T02:00:00.000000Z"

/-- Run in which a surviving entry precedes one with unparseable
`last_sync`. -/
def envPartial : Env :=
  ⟨"linux", 0, nowRef, .ok ⟨freshCheck, [entryGood, entryBadSync]⟩, "OLD"⟩

/-- Run with two surviving entries. -/
def envTwoLines : Env :=
  ⟨"linux", 0, nowRef, .ok ⟨freshCheck, [entryGood, entryGood2]⟩, "OLD"⟩

/-- Run in which every entry fails a predicate. -/
def envAllFail : Env :=
  ⟨"linux", 0, nowRef, .ok ⟨freshCheck, [entryHttp]⟩, "OLD"⟩

/-- Run with a stale `last_check`. -/
def envStale : Env :=
  ⟨"linux", 0, nowRef, .ok ⟨staleCheck, [entryGood]⟩, "OLD"⟩

/-- `envStale` with the `last_check` replaced by a fresh one. -/
def envFresh : Env :=
  ⟨"linux", 0, nowRef, .ok ⟨freshCheck, [entryGood]⟩, "OLD"⟩

/-! ### Helper lemmas -/

/-- The total keep predicate unfolded into the six filter predicates. -/
theorem keepB_true_iff (now : Int) (e : MirrorEntry) :
    keepB now e = true ↔
      ((∀ s ∈ URL_BLACKLIST, strContains e.url s = false) ∧
       e.active = true ∧
       e.protocol = "https" ∧
       MINIMUM_COMPLETION_PERCENTAGE ≤ e.completion_pct ∧
       e.score < MAX_SCORE ∧
       is_outdated now e.last_sync TimeFormat.noSub = some false) := by
  unfold keepB keepEntry
  split_ifs with h1 h2 h3 h4 h5
  · simp only [List.any_eq_true] at h1
    obtain ⟨s, hs, hcs⟩ := h1
    simp only [Bool.false_eq_true, false_iff, not_and]
    intro hA
    exact absurd hcs (by simp [hA s hs])
  · simp only [Bool.not_eq_true'] at h2
    simp only [Bool.false_eq_true, false_iff, not_and]
    intro _ hB
    simp [hB] at h2
  · simp only [Bool.false_eq_true, false_iff, not_and]
    intro _ _ hC
    exact absurd hC h3
  · simp only [Bool.not_eq_true', decide_eq_false_iff_not, not_le] at h4
    simp only [Bool.false_eq_true, false_iff, not_and]
    intro _ _ _ hD
    exact absurd hD (not_le.mpr h4)
  · simp only [decide_eq_true_eq] at h5
    simp only [Bool.false_eq_true, false_iff, not_and]
    intro _ _ _ _ hE
    exact absurd h5 (not_le.mpr hE)
  · cases hio : is_outdated now e.last_sync TimeFormat.noSub with
    | none =>
      simp only [Bool.false_eq_true, false_iff, not_and]
      intro _ _ _ _ _ hF
      simp [hio] at hF
    | some b =>
      cases b with
      | true =>
        simp only [Bool.false_eq_true, false_iff, not_and]
        intro _ _ _ _ _ hF
        simp [hio] at hF
      | false =>
        simp only [true_iff]
        refine ⟨?_, ?_, ?_, ?_, ?_, by trivial⟩
        · intro s hs
          have h1' : URL_BLACKLIST.any
              (fun slow_url => strContains e.url slow_url) = false :=
            Bool.not_eq_true _ ▸ (by simpa using h1)
          simpa using (List.any_eq_false.mp h1') s hs
        · simpa using h2
        · simpa using h3
        · have := h4
          simp only [Bool.not_eq_true', decide_eq_false_iff_not, not_not] at this
          simpa using this
        · have := h5
          simp only [decide_eq_true_eq, not_le] at this
          exact this

/-- The fall-through branch reduces `keepB` to `.ok true`-ness. -/
theorem keepB_of_keepEntry (now : Int) (e : MirrorEntry) (b : Bool)
    (h : keepEntry now e = .ok b) : keepB now e = b := by
  cases b <;> simp [keepB, h]

/-- When no entry raises, `updated_urls` yields exactly the formatted
filtered list and finishes normally. -/
theorem updated_urls_noerr (now : Int) (l : List MirrorEntry)
    (h : ∀ e ∈ l, keepEntry now e ≠ .error ()) :
    updated_urls now l = ((l.filter (keepB now)).map formatLine, false) := by
  induction l with
  | nil => rfl
  | cons e rest ih =>
    have hrest : ∀ x ∈ rest, keepEntry now x ≠ .error () :=
      fun x hx => h x (List.mem_cons_of_mem _ hx)
    cases hk : keepEntry now e with
    | error u =>
      cases u
      exact absurd hk (h e (List.mem_cons_self _ _))
    | ok b =>
      have hkb := keepB_of_keepEntry now e b hk
      cases b with
      | false =>
        simp [updated_urls, hk, List.filter_cons, hkb, ih hrest]
      | true =>
        simp [updated_urls, hk, List.filter_cons, hkb, ih hrest]

/-- Full characterization of the write loop when no entry raises: it
finishes normally, opens the file once per surviving entry, truncates on
the first open, and appends each further line. -/
theorem writeLoop_spec (now : Int) (l : List MirrorEntry) (st : WriteState)
    (h : ∀ e ∈ l, keepEntry now e ≠ .error ()) :
    writeLoop now l st =
      (⟨(if l.filter (keepB now) = [] then st.file
         else (if st.truncate then "" else st.file)
           ++ linesConcat ((l.filter (keepB now)).map formatLine)),
        st.openCount + (l.filter (keepB now)).length,
        st.truncate && (l.filter (keepB now)).isEmpty,
        st.have_failed && (l.filter (keepB now)).isEmpty⟩, false) := by
  induction l generalizing st with
  | nil => simp [writeLoop]
  | cons e rest ih =>
    have hrest : ∀ x ∈ rest, keepEntry now x ≠ .error () :=
      fun x hx => h x (List.mem_cons_of_mem _ hx)
    cases hk : keepEntry now e with
    | error u =>
      cases u
      exact absurd hk (h e (List.mem_cons_self _ _))
    | ok b =>
      have hkb := keepB_of_keepEntry now e b hk
      cases b with
      | false =>
        simp only [writeLoop, hk, List.filter_cons, hkb, Bool.false_eq_true,
          if_false]
        exact ih st hrest
      | true =>
        simp only [writeLoop, hk, List.filter_cons, hkb, if_true]
        rw [ih _ hrest]
        by_cases hre : rest.filter (keepB now) = []
        · simp [hre, linesConcat, String.append_empty, String.append_assoc]
        · simp [hre, linesConcat, String.append_assoc,
            List.isEmpty_iff.not.mpr hre]
          omega

/-- Splitting the write loop across an append, when the first part does
not raise. -/
theorem writeLoop_append (now : Int) (l₁ l₂ : List MirrorEntry)
    (st : WriteState) (h : (writeLoop now l₁ st).2 = false) :
    writeLoop now (l₁ ++ l₂) st = writeLoop now l₂ (writeLoop now l₁ st).1 := by
  induction l₁ generalizing st with
  | nil => simp [writeLoop]
  | cons e rest ih =>
    cases hk : keepEntry now e with
    | error u =>
      simp [writeLoop, hk] at h
    | ok b =>
      cases b with
      | false =>
        simp only [writeLoop, hk] at h
        rw [List.cons_append]
        simp only [writeLoop, hk]
        exact ih st h
      | true =>
        simp only [writeLoop, hk] at h
        rw [List.cons_append]
        simp only [writeLoop, hk]
        exact ih _ h

/-- The hour comparison of `is_outdated` in exact microseconds. -/
theorem hours_gt_iff (d : Int) :
    (((d : Rat) / 1000000) / 3600 > (MAX_LAST_SYNC_HOURS : Rat)) ↔
      (21600000000 : Int) < d := by
  unfold MAX_LAST_SYNC_HOURS
  rw [div_div, gt_iff_lt, lt_div_iff₀ (by norm_num : (0:Rat) < 1000000 * 3600)]
  norm_num
  constructor
  · intro h
    exact_mod_cast h
  · intro h
    exact_mod_cast h

/-- `is_outdated` on a parseable timestamp computes the strict 6-hour
threshold test in microseconds. -/
theorem is_outdated_parse_eq (now : Int) (ts : String) (fmt : TimeFormat)
    (dt : DT) (h : strptime fmt ts = some dt) :
    is_outdated now ts fmt
      = some (decide ((21600000000 : Int) < now - (toEpochUs dt : Int))) := by
  unfold is_outdated
  rw [h]
  exact congrArg some (decide_eq_decide.mpr (hours_gt_iff _))

/-- `keepEntry` with the hour arithmetic replaced by the equivalent exact
microsecond comparison (used to evaluate fixtures, since `Rat`
multiplication is irreducible). -/
theorem keepEntry_eq_match (now : Int) (e : MirrorEntry) :
    keepEntry now e =
      (if URL_BLACKLIST.any (fun slow_url => strContains e.url slow_url) then
        .ok false
      else if !e.active then
        .ok false
      else if e.protocol ≠ "https" then
        .ok false
      else if !(decide (e.completion_pct ≥ MINIMUM_COMPLETION_PERCENTAGE)) then
        .ok false
      else if decide (e.score ≥ MAX_SCORE) then
        .ok false
      else
        match strptime TimeFormat.noSub e.last_sync with
        | none => .error ()
        | some dt =>
          if (21600000000 : Int) < now - (toEpochUs dt : Int) then .ok false
          else .ok true) := by
  unfold keepEntry
  cases hp : strptime TimeFormat.noSub e.last_sync with
  | none =>
    simp [is_outdated, hp]
  | some dt =>
    rw [is_outdated_parse_eq now e.last_sync TimeFormat.noSub dt hp]
    by_cases hI : (21600000000 : Int) < now - (toEpochUs dt : Int)
    · simp [hI]
    · simp [hI]

/-- `"linux" in "linux"` holds. -/
theorem plat_linux : is_platform_linux "linux" = true := by decide

/-- `entryGood` passes all six predicates at `nowRef`. -/
theorem keep_entryGood : keepEntry nowRef entryGood = .ok true := by
  rw [keepEntry_eq_match]
  decide

/-- `entryGood2` passes all six predicates at `nowRef`. -/
theorem keep_entryGood2 : keepEntry nowRef entryGood2 = .ok true := by
  rw [keepEntry_eq_match]
  decide

/-- `entryHttp` is skipped for its protocol. -/
theorem keep_entryHttp : keepEntry nowRef entryHttp = .ok false := by
  rw [keepEntry_eq_match]
  decide

/-- `entryBadSync` raises while parsing `last_sync`. -/
theorem keep_entryBadSync : keepEntry nowRef entryBadSync = .error () := by
  rw [keepEntry_eq_match]
  decide

/-- `keepB` value on `entryGood`. -/
theorem kb_entryGood : keepB nowRef entryGood = true := by
  simp [keepB, keep_entryGood]

/-- `keepB` value on `entryGood2`. -/
theorem kb_entryGood2 : keepB nowRef entryGood2 = true := by
  simp [keepB, keep_entryGood2]

/-- `keepB` value on `entryHttp`. -/
theorem kb_entryHttp : keepB nowRef entryHttp = false := by
  simp [keepB, keep_entryHttp]

/-- The fresh `last_check` fixture is not stale at `nowRef`. -/
theorem lc_fresh :
    is_outdated nowRef freshCheck TimeFormat.subSec = some false := by
  rw [is_outdated_parse_eq nowRef freshCheck TimeFormat.subSec
    ⟨2020, 1, 1, 11, 0, 0, 0⟩ (by decide)]
  decide

/-- The stale `last_check` fixture (10 hours old) is stale at `nowRef`. -/
theorem lc_stale :
    is_outdated nowRef staleCheck TimeFormat.subSec = some true := by
  rw [is_outdated_parse_eq nowRef staleCheck TimeFormat.subSec
    ⟨2020, 1, 1, 2, 0, 0, 0⟩ (by decide)]
  decide

/-- No entry of the two-entry `[entryGood, entryHttp]` fixture raises. -/
theorem noerr_goodHttp :
    ∀ e ∈ [entryGood, entryHttp], keepEntry nowRef e ≠ .error () := by
  intro e he
  rcases List.mem_cons.mp he with rfl | he
  · simp [keep_entryGood]
  · rcases List.mem_singleton.mp he with rfl
    simp [keep_entryHttp]

/-- No entry of the `[entryGood, entryGood2]` fixture raises. -/
theorem noerr_twoGood :
    ∀ e ∈ [entryGood, entryGood2], keepEntry nowRef e ≠ .error () := by
  intro e he
  rcases List.mem_cons.mp he with rfl | he
  · simp [keep_entryGood]
  · rcases List.mem_singleton.mp he with rfl
    simp [keep_entryGood2]

/-- Filter value on the `[entryGood, entryHttp]` fixture. -/
theorem filter_goodHttp :
    [entryGood, entryHttp].filter (keepB nowRef) = [entryGood] := by
  simp [List.filter_cons, kb_entryGood, kb_entryHttp]

/-- Filter value on the `[entryGood, entryGood2]` fixture. -/
theorem filter_twoGood :
    [entryGood, entryGood2].filter (keepB nowRef)
      = [entryGood, entryGood2] := by
  simp [List.filter_cons, kb_entryGood, kb_entryGood2]

/-- Filter value on the singleton `[entryGood]` fixture. -/
theorem filter_oneGood :
    [entryGood].filter (keepB nowRef) = [entryGood] := by
  simp [List.filter_cons, kb_entryGood]

/-! ### Claim theorems -/

/-- C1: on any candidate list on which no entry raises while parsing
`last_sync`, the filter `updated_urls` yields exactly the order-preserving
subsequence (a sublist, formatted in input order) of the entries satisfying
all six predicates: no denylisted substring in the url, active, protocol
exactly "https", completion percentage at least the configured minimum,
score strictly below the configured maximum, and a non-stale `last_sync`
under the no-sub-second format. -/
theorem updated_urls_is_ordered_filter (now : Int) (l : List MirrorEntry)
    (h : ∀ e ∈ l, keepEntry now e ≠ .error ()) :
    updated_urls now l = ((l.filter (keepB now)).map formatLine, false) ∧
    (l.filter (keepB now)).Sublist l ∧
    (∀ e : MirrorEntry, keepB now e = true ↔
      ((∀ s ∈ URL_BLACKLIST, strContains e.url s = false) ∧
       e.active = true ∧
       e.protocol = "https" ∧
       MINIMUM_COMPLETION_PERCENTAGE ≤ e.completion_pct ∧
       e.score < MAX_SCORE ∧
       is_outdated now e.last_sync TimeFormat.noSub = some false)) :=
  ⟨updated_urls_noerr now l h, List.filter_sublist l,
    fun e => keepB_true_iff now e⟩

/-- Witness for C1 at a concrete two-entry list (one surviving entry, one
rejected for its protocol). -/
theorem updated_urls_is_ordered_filter_witness :
    updated_urls nowRef [entryGood, entryHttp]
      = (([entryGood, entryHttp].filter (keepB nowRef)).map formatLine,
         false) ∧
    ([entryGood, entryHttp].filter (keepB nowRef)).map formatLine
      = ["Server = mirror.example/$repo/os/$arch\n"] :=
  ⟨(updated_urls_is_ordered_filter nowRef [entryGood, entryHttp]
      noerr_goodHttp).1,
   by rw [filter_goodHttp]; decide⟩

/-- C5: on any timestamp string the supplied format parses, `is_outdated`
returns true exactly when the elapsed duration strictly exceeds the 6-hour
threshold (21600000000 microseconds); elapsed exactly 6 hours is not
stale, and elapsed 6.01 hours (36 more seconds) is stale. -/
theorem is_outdated_threshold (now : Int) (ts : String) (fmt : TimeFormat)
    (dt : DT) (h : strptime fmt ts = some dt) :
    is_outdated now ts fmt
      = some (decide ((21600000000 : Int) < now - (toEpochUs dt : Int))) ∧
    (now - (toEpochUs dt : Int) = 21600000000 →
      is_outdated now ts fmt = some false) ∧
    (now - (toEpochUs dt : Int) = 21636000000 →
      is_outdated now ts fmt = some true) := by
  have hmain := is_outdated_parse_eq now ts fmt dt h
  refine ⟨hmain, ?_, ?_⟩
  · intro hd
    rw [hmain, hd]
    decide
  · intro hd
    rw [hmain, hd]
    decide

/-- Witness for C5: at noon, a 6-hours-old timestamp is not stale and a
6.01-hours-old one is. -/
theorem is_outdated_threshold_witness :
    is_outdated nowRef "2020-01-01T06:00:00Z" TimeFormat.noSub
      = some false ∧
    is_outdated nowRef "2020-01-01T05:59:24Z" TimeFormat.noSub
      = some true :=
  ⟨(is_outdated_threshold nowRef "2020-01-01T06:00:00Z" TimeFormat.noSub
      ⟨2020, 1, 1, 6, 0, 0, 0⟩ (by decide)).2.1 (by decide),
   (is_outdated_threshold nowRef "2020-01-01T05:59:24Z" TimeFormat.noSub
      ⟨2020, 1, 1, 5, 59, 24, 0⟩ (by decide)).2.2 (by decide)⟩

/-- C9: an entry that fails one of the first five predicates is skipped
with `.ok false` no matter what its `last_sync` field holds, because the
`elif` chain short-circuits before `is_outdated` is called: such an entry
can never raise a `TimeParseError`. -/
theorem keepEntry_short_circuit (now : Int) (e : MirrorEntry)
    (h : (∃ s ∈ URL_BLACKLIST, strContains e.url s = true) ∨
         e.active = false ∨
         e.protocol ≠ "https" ∨
         e.completion_pct < MINIMUM_COMPLETION_PERCENTAGE ∨
         MAX_SCORE ≤ e.score) :
    keepEntry now e = .ok false := by
  unfold keepEntry
  split_ifs with h1 h2 h3 h4 h5
  · rfl
  · rfl
  · rfl
  · rfl
  · rfl
  · exfalso
    rcases h with hA | hB | hC | hD | hE
    · exact h1 (List.any_eq_true.mpr hA)
    · simp [hB] at h2
    · exact h3 hC
    · rw [Bool.not_eq_true', decide_eq_false_iff_not, not_not] at h4
      exact absurd h4 (not_le.mpr hD)
    · rw [decide_eq_true_eq] at h5
      exact h5 hE

/-- Witness for C9: an inactive entry with an unparseable `last_sync` is
skipped rather than raising. -/
theorem keepEntry_short_circuit_witness :
    strptime TimeFormat.noSub entryOffline.last_sync = none ∧
    keepEntry 0 entryOffline = .ok false :=
  ⟨by decide,
   keepEntry_short_circuit 0 entryOffline (Or.inr (Or.inl (by decide)))⟩

/-- C10: a timestamp that parses to an instant at or after the reference
time is never stale: the signed elapsed duration is non-positive, so it
cannot exceed the 6-hour threshold. -/
theorem is_outdated_future_not_stale (now : Int) (ts : String)
    (fmt : TimeFormat) (dt : DT) (h : strptime fmt ts = some dt)
    (hfut : now ≤ (toEpochUs dt : Int)) :
    is_outdated now ts fmt = some false := by
  rw [is_outdated_parse_eq now ts fmt dt h]
  have : ¬ ((21600000000 : Int) < now - (toEpochUs dt : Int)) := by omega
  simp [this]

/-- Witness for C10: a timestamp six hours in the future is not stale. -/
theorem is_outdated_future_not_stale_witness :
    is_outdated nowRef "2020-01-01T18:00:00Z" TimeFormat.noSub
      = some false :=
  is_outdated_future_not_stale nowRef "2020-01-01T18:00:00Z"
    TimeFormat.noSub ⟨2020, 1, 1, 18, 0, 0, 0⟩ (by decide) (by decide)

/-- C6: every line the filter yields is exactly `"Server = "`, the
surviving entry's url, then the literal placeholder suffix
`"$repo/os/$arch"` and a newline; the placeholders are emitted verbatim. -/
theorem output_line_format (now : Int) (l : List MirrorEntry)
    (line : String) (h : line ∈ (updated_urls now l).1) :
    ∃ e, e ∈ l ∧ keepB now e = true ∧
      line = "Server = " ++ e.url ++ "$repo/os/$arch\n" := by
  induction l with
  | nil => simp [updated_urls] at h
  | cons e rest ih =>
    cases hk : keepEntry now e with
    | error u =>
      simp [updated_urls, hk] at h
    | ok b =>
      cases b with
      | false =>
        simp only [updated_urls, hk] at h
        obtain ⟨e', he', hkb, hl⟩ := ih h
        exact ⟨e', List.mem_cons_of_mem _ he', hkb, hl⟩
      | true =>
        rcases hu : updated_urls now rest with ⟨ls, ab⟩
        simp only [updated_urls, hk, hu] at h
        rcases List.mem_cons.mp h with hline | hline
        · exact ⟨e, List.mem_cons_self _ _,
            keepB_of_keepEntry now e true hk, by rw [hline]; rfl⟩
        · obtain ⟨e', he', hkb, hl⟩ := ih (by rw [hu]; exact hline)
          exact ⟨e', List.mem_cons_of_mem _ he', hkb, hl⟩

/-- Witness for C6 at a concrete surviving entry. -/
theorem output_line_format_witness :
    ∃ e, e ∈ [entryGood] ∧ keepB nowRef e = true ∧
      "Server = mirror.example/$repo/os/$arch\n"
        = "Server = " ++ e.url ++ "$repo/os/$arch\n" :=
  output_line_format nowRef [entryGood]
    "Server = mirror.example/$repo/os/$arch\n"
    (by rw [updated_urls_noerr nowRef [entryGood]
        (by intro e he; rcases List.mem_singleton.mp he with rfl
            simp [keep_entryGood]), filter_oneGood]
        decide)

/-- C7: if `"linux"` does not occur in the platform string, `main` aborts
with the platform error; if it does but the effective uid is nonzero,
`main` aborts with the privilege error; in both cases the fetch is never
attempted, the file is never opened and its content is unchanged, and no
warning is emitted. -/
theorem main_precondition_checks (env : Env) :
    (is_platform_linux env.platform = false →
      main env
        = ⟨env.preFile, 0, false, false, false,
           some RunError.platformError⟩) ∧
    (is_platform_linux env.platform = true → env.euid ≠ 0 →
      main env
        = ⟨env.preFile, 0, false, false, false,
           some RunError.privilegeError⟩) := by
  constructor
  · intro hplat
    simp [main, hplat]
  · intro hplat hroot
    simp [main, hplat, hroot]

/-- Witness for C7: a non-linux platform and a non-root user each abort
before fetching. -/
theorem main_precondition_checks_witness :
    main ⟨"darwin", 0, 0, .error .network, "OLD"⟩
      = ⟨"OLD", 0, false, false, false, some RunError.platformError⟩ ∧
    main ⟨"linux", 1000, 0, .error .network, "OLD"⟩
      = ⟨"OLD", 0, false, false, false, some RunError.privilegeError⟩ :=
  ⟨(main_precondition_checks ⟨"darwin", 0, 0, .error .network, "OLD"⟩).1
      (by decide),
   (main_precondition_checks ⟨"linux", 1000, 0, .error .network, "OLD"⟩).2
      (by decide) (by decide)⟩

/-- The write loop on the `[entryGood, entryBadSync]` fixture: the first
line is written, then the generator raises. -/
theorem writeLoop_partial_fixture :
    writeLoop nowRef [entryGood, entryBadSync] ⟨"OLD", 0, true, true⟩
      = (⟨"Server = mirror.example/$repo/os/$arch\n", 1, false, false⟩,
         true) := by
  simp only [writeLoop, keep_entryGood, keep_entryBadSync]
  decide

/-- The write loop on the `[entryGood, entryGood2]` fixture: two opens,
two lines. -/
theorem writeLoop_two_fixture :
    writeLoop nowRef [entryGood, entryGood2] ⟨"OLD", 0, true, true⟩
      = (⟨"Server = mirror.example/$repo/os/$arch\nServer = other.example/$repo/os/$arch\n",
          2, false, false⟩, false) := by
  simp only [writeLoop, keep_entryGood, keep_entryGood2]
  decide

/-- C2 counterexample: in `envPartial` the run aborts with the
`TimeParseError` raised on the second entry, yet the file has already been
truncated and overwritten with the first surviving line, so its content is
not what it was before the run. -/
theorem timeparse_abort_mutates_file_cex :
    (main envPartial).err = some RunError.timeParseError ∧
    (main envPartial).file ≠ envPartial.preFile := by
  have hmain : main envPartial
      = ⟨"Server = mirror.example/$repo/os/$arch\n", 1, true, false, false,
         some RunError.timeParseError⟩ := by
    simp [main, envPartial, plat_linux, lc_fresh, writeLoop_partial_fixture]
  rw [hmain]
  exact ⟨rfl, by decide⟩

/-- C2 amended: when the run aborts with a `TimeParseError` raised while
filtering some entry, the file holds exactly the formatted lines of the
surviving entries that precede that entry (in particular it is untouched
exactly when no earlier entry survived), and one open happened per such
line. -/
theorem timeparse_abort_writes_surviving_prefix
    (env : Env) (data : Payload) (stale : Bool)
    (l₁ l₂ : List MirrorEntry) (e : MirrorEntry)
    (hplat : is_platform_linux env.platform = true)
    (hroot : env.euid = 0)
    (hfetch : env.fetchResult = .ok data)
    (hlc : is_outdated env.now data.last_check TimeFormat.subSec
      = some stale)
    (hurls : data.urls = l₁ ++ e :: l₂)
    (hok : ∀ x ∈ l₁, keepEntry env.now x ≠ .error ())
    (herr : keepEntry env.now e = .error ()) :
    (main env).err = some RunError.timeParseError ∧
    (main env).file =
      (if l₁.filter (keepB env.now) = [] then env.preFile
       else linesConcat ((l₁.filter (keepB env.now)).map formatLine)) ∧
    (main env).openCount = (l₁.filter (keepB env.now)).length := by
  have h1 := writeLoop_spec env.now l₁ ⟨env.preFile, 0, true, true⟩ hok
  have h2 : writeLoop env.now (l₁ ++ e :: l₂) ⟨env.preFile, 0, true, true⟩
      = ((writeLoop env.now l₁ ⟨env.preFile, 0, true, true⟩).1, true) := by
    rw [writeLoop_append env.now l₁ (e :: l₂) ⟨env.preFile, 0, true, true⟩
      (by rw [h1])]
    simp [writeLoop, herr]
  rw [h1] at h2
  simp [main, hplat, hroot, hfetch, hlc, hurls, h2]

/-- Witness for the amended C2 on `envPartial`: one surviving entry
precedes the malformed one, so exactly its line is in the file. -/
theorem timeparse_abort_writes_surviving_prefix_witness :
    (main envPartial).err = some RunError.timeParseError ∧
    (main envPartial).file =
      (if [entryGood].filter (keepB nowRef) = [] then envPartial.preFile
       else linesConcat (([entryGood].filter (keepB nowRef)).map
          formatLine)) ∧
    (main envPartial).openCount
      = ([entryGood].filter (keepB nowRef)).length :=
  timeparse_abort_writes_surviving_prefix envPartial
    ⟨freshCheck, [entryGood, entryBadSync]⟩ false [entryGood] []
    entryBadSync plat_linux rfl rfl lc_fresh rfl
    (by
      intro x hx
      rcases List.mem_singleton.mp hx with rfl
      simp [envPartial, keep_entryGood])
    keep_entryBadSync

/-- C3 counterexample: a successful run with a non-empty two-line
sequence opens the destination file twice, not once. -/
theorem writer_opens_once_cex :
    (updated_urls nowRef [entryGood, entryGood2]).1.length = 2 ∧
    (main envTwoLines).err = none ∧
    (main envTwoLines).openCount = 2 ∧
    (main envTwoLines).openCount ≠ 1 := by
  have hmain : main envTwoLines
      = ⟨"Server = mirror.example/$repo/os/$arch\nServer = other.example/$repo/os/$arch\n",
         2, true, false, false, none⟩ := by
    simp [main, envTwoLines, plat_linux, lc_fresh, writeLoop_two_fixture]
  refine ⟨?_, ?_, ?_, ?_⟩
  · rw [updated_urls_noerr nowRef [entryGood, entryGood2] noerr_twoGood,
      filter_twoGood]
    decide
  · rw [hmain]
  · rw [hmain]
  · rw [hmain]
    decide

/-- C3 amended: on a successful run with at least one surviving entry, the
file is opened once per surviving line (truncating on the first, appending
on the rest), and the final content is exactly the concatenation of the
surviving lines in input order, with no pre-existing content surviving. -/
theorem writer_truncate_append_content (env : Env) (data : Payload)
    (stale : Bool)
    (hplat : is_platform_linux env.platform = true)
    (hroot : env.euid = 0)
    (hfetch : env.fetchResult = .ok data)
    (hlc : is_outdated env.now data.last_check TimeFormat.subSec
      = some stale)
    (hok : ∀ e ∈ data.urls, keepEntry env.now e ≠ .error ())
    (hne : data.urls.filter (keepB env.now) ≠ []) :
    (main env).err = none ∧
    (main env).openCount = (data.urls.filter (keepB env.now)).length ∧
    (main env).file
      = linesConcat ((data.urls.filter (keepB env.now)).map formatLine) ∧
    (main env).warnedNotUpdated = false := by
  have hw := writeLoop_spec env.now data.urls ⟨env.preFile, 0, true, true⟩
    hok
  simp [main, hplat, hroot, hfetch, hlc, hw, hne,
    List.isEmpty_eq_false.mpr hne]

/-- Witness for the amended C3 on the two-line run `envTwoLines`. -/
theorem writer_truncate_append_content_witness :
    (main envTwoLines).err = none ∧
    (main envTwoLines).openCount
      = ([entryGood, entryGood2].filter (keepB nowRef)).length ∧
    (main envTwoLines).file
      = linesConcat (([entryGood, entryGood2].filter (keepB nowRef)).map
          formatLine) ∧
    (main envTwoLines).warnedNotUpdated = false :=
  writer_truncate_append_content envTwoLines
    ⟨freshCheck, [entryGood, entryGood2]⟩ false plat_linux rfl rfl
    lc_fresh noerr_twoGood
    (by
      show [entryGood, entryGood2].filter (keepB nowRef) ≠ []
      rw [filter_twoGood]
      simp)

/-- C4: when every candidate entry fails at least one predicate, the run
completes without error, the file is never opened and keeps its previous
content, and the "mirror list was not updated" warning is emitted. -/
theorem empty_filter_leaves_file_untouched (env : Env) (data : Payload)
    (stale : Bool)
    (hplat : is_platform_linux env.platform = true)
    (hroot : env.euid = 0)
    (hfetch : env.fetchResult = .ok data)
    (hlc : is_outdated env.now data.last_check TimeFormat.subSec
      = some stale)
    (hall : ∀ e ∈ data.urls, keepEntry env.now e = .ok false) :
    main env = ⟨env.preFile, 0, true, stale, true, none⟩ := by
  have hok : ∀ e ∈ data.urls, keepEntry env.now e ≠ .error () := by
    intro e he h
    rw [hall e he] at h
    cases h
  have hnil : data.urls.filter (keepB env.now) = [] := by
    rw [List.filter_eq_nil_iff]
    intro e he
    simp [keepB_of_keepEntry env.now e false (hall e he)]
  have hw := writeLoop_spec env.now data.urls ⟨env.preFile, 0, true, true⟩
    hok
  rw [hnil] at hw
  simp only [List.map_nil, List.length_nil, List.isEmpty_nil,
    Bool.and_true, Nat.add_zero, if_pos rfl] at hw
  simp [main, hplat, hroot, hfetch, hlc, hw]

/-- Witness for C4 on `envAllFail` (its only entry fails the protocol
predicate). -/
theorem empty_filter_leaves_file_untouched_witness :
    main envAllFail = ⟨envAllFail.preFile, 0, true, false, true, none⟩ :=
  empty_filter_leaves_file_untouched envAllFail ⟨freshCheck, [entryHttp]⟩
    false plat_linux rfl rfl lc_fresh
    (by
      intro e he
      rcases List.mem_singleton.mp he with rfl
      exact keep_entryHttp)

/-- C8: a stale top-level `last_check` only triggers the advisory warning;
the rest of the run (file content, number of opens, the not-updated
warning, and the final error status) is identical to the same run with a
fresh `last_check`. -/
theorem stale_last_check_advisory (env env' : Env) (data : Payload)
    (lc2 : String)
    (hplat : is_platform_linux env.platform = true)
    (hroot : env.euid = 0)
    (hfetch : env.fetchResult = .ok data)
    (hstale : is_outdated env.now data.last_check TimeFormat.subSec
      = some true)
    (hfresh : is_outdated env.now lc2 TimeFormat.subSec = some false)
    (henv' : env'
      = { env with fetchResult := .ok { data with last_check := lc2 } }) :
    (main env).warnedStale = true ∧
    (main env').warnedStale = false ∧
    (main env).file = (main env').file ∧
    (main env).openCount = (main env').openCount ∧
    (main env).warnedNotUpdated = (main env').warnedNotUpdated ∧
    (main env).err = (main env').err := by
  subst henv'
  rcases hw : writeLoop env.now data.urls ⟨env.preFile, 0, true, true⟩
    with ⟨st, ab⟩
  cases ab <;>
    simp [main, hplat, hroot, hfetch, hstale, hfresh, hw]

/-- Witness for C8: the 10-hours-old `last_check` run warns but writes the
same file as the fresh-`last_check` run. -/
theorem stale_last_check_advisory_witness :
    (main envStale).warnedStale = true ∧
    (main envFresh).warnedStale = false ∧
    (main envStale).file = (main envFresh).file ∧
    (main envStale).openCount = (main envFresh).openCount ∧
    (main envStale).warnedNotUpdated = (main envFresh).warnedNotUpdated ∧
    (main envStale).err = (main envFresh).err :=
  stale_last_check_advisory envStale envFresh ⟨staleCheck, [entryGood]⟩
    freshCheck plat_linux rfl rfl lc_stale lc_fresh rfl

end ArchMirror
